import Mathlib

/-!
Shallow embedding of the MinRide data generator (`src/DataGenerator/main.cpp`).

The C++ program is a single-pass script: it seeds `rand()`, then writes three
CSV files (drivers, customers, rides).  We model the pseudo-random source as an
arbitrary stream `g : ℕ → ℕ` of `rand()` results (each call consumes the next
stream element; a genuine libc stream satisfies `g j ≤ RAND_MAX` for every
`j`), C `double` arithmetic as exact rational arithmetic (`ℚ`), C `int` as
`ℤ`, and the wall clock together with the C library's `localtime` as explicit
parameters, since they are external inputs of the program.
-/

namespace MinRide

/-- `RAND_MAX` of the target platform (glibc): `2^31 - 1`.  `rand()` returns a
value in `[0, RAND_MAX]`. -/
def RAND_MAX : ℕ := 2147483647

/-- `const int SO_TAI_XE = 100;` (driver count). -/
def SO_TAI_XE : ℕ := 100

/-- `const int SO_KHACH_HANG = 100;` (customer count). -/
def SO_KHACH_HANG : ℕ := 100

/-- `const int SO_CHUYEN_DI = 500;` (ride count). -/
def SO_CHUYEN_DI : ℕ := 500

/-- Surname list `HO`. -/
def HO : List String :=
  ["Nguyen", "Tran", "Le", "Pham", "Hoang", "Vo", "Dang", "Bui", "Ngo", "Truong"]

/-- Middle-name list `TEN_DEM`. -/
def TEN_DEM : List String :=
  ["Van", "Thi", "Duc", "Minh", "Quang", "Thanh", "Manh", "Quoc", "Hong", "Tuan"]

/-- Given-name list `TEN`. -/
def TEN : List String :=
  ["An", "Binh", "Cuong", "Dung", "Em", "Phong", "Giang", "Hai", "Khoa", "Lam",
   "Hoa", "Lan", "Linh", "Nga", "Huong", "Tam", "Tuan", "Hung", "Duc", "Thao"]

/-- District list `QUAN`. -/
def QUAN : List String :=
  ["Quan 1", "Quan 3", "Quan 5", "Quan 7", "Quan 10",
   "Quan Binh Thanh", "Quan Go Vap", "Quan Thu Duc", "Quan Phu Nhuan", "Quan Tan Binh"]

/-- `int randomInt(int min, int max) { return min + rand() % (max - min + 1); }`
with the `rand()` result `r` passed explicitly.  For nonnegative operands C's
truncated `%` agrees with `Int.emod`. -/
def randomInt (lo hi : ℤ) (r : ℕ) : ℤ := lo + (r : ℤ) % (hi - lo + 1)

/-- `double randomDouble(double min, double max)`
`{ return min + (double)rand() / RAND_MAX * (max - min); }`. -/
def randomDouble (lo hi : ℚ) (r : ℕ) : ℚ := lo + (r : ℚ) / (RAND_MAX : ℚ) * (hi - lo)

/-- `double lam_tron(double x) { return round(x * 10) / 10; }`.  Mathlib's
`round` rounds halves up while C's `round` rounds halves away from zero; the
two agree on the nonnegative inputs this program feeds to `lam_tron`. -/
def lam_tron (x : ℚ) : ℚ := ((round (x * 10) : ℤ) : ℚ) / 10

/-- `string sinh_ten()`: one surname, one middle name, one given name, each
picked by `randomInt`; the three `rand()` results are passed explicitly. -/
def sinh_ten (r1 r2 r3 : ℕ) : String :=
  HO.getD (randomInt 0 9 r1).toNat "" ++ " " ++ TEN_DEM.getD (randomInt 0 9 r2).toNat "" ++
    " " ++ TEN.getD (randomInt 0 19 r3).toNat ""

/-- The decimal-digit string iostream prints for a nonnegative integer. -/
def natToDecStr (n : ℕ) : String :=
  if n = 0 then "0"
  else ((Nat.digits 10 n).reverse.map (fun d => Char.ofNat (48 + d))).asString

/-- Decimal printing of a C `int` (sign, then digits). -/
def intToDecStr (n : ℤ) : String :=
  if n < 0 then "-" ++ natToDecStr n.natAbs else natToDecStr n.natAbs

/-- `fixed << setprecision(1)` formatting of the nonnegative one-decimal
values this program prints. -/
def fmt1 (q : ℚ) : String :=
  intToDecStr (round (q * 10) / 10) ++ "." ++ natToDecStr ((round (q * 10)).toNat % 10)

/-- `fixed << setprecision(0)` formatting: the value rounded to an integer. -/
def fmt0 (q : ℚ) : String := intToDecStr (round q)

/-- The `struct tm` fields `localtime` fills in (only the six the program
prints); `tm_year` counts years since 1900. -/
structure Tm where
  tm_year : ℕ
  tm_mon : ℕ
  tm_mday : ℕ
  tm_hour : ℕ
  tm_min : ℕ
  tm_sec : ℕ

/-- `setfill('0') << setw(2)` printing of a nonnegative field: pad to two
characters with a leading zero (wider values print all their digits). -/
def pad2 (n : ℕ) : String :=
  if n < 10 then "0" ++ natToDecStr n else natToDecStr n

/-- The stream expression of `sinh_timestamp`: year unpadded, every other
field padded to width 2, with the `-`/`T`/`:` separators of the source. -/
def format_tm (t : Tm) : String :=
  natToDecStr (1900 + t.tm_year) ++ "-" ++ pad2 (1 + t.tm_mon) ++ "-" ++ pad2 t.tm_mday ++
    "T" ++ pad2 t.tm_hour ++ ":" ++ pad2 t.tm_min ++ ":" ++ pad2 t.tm_sec

/-- `now -= ngay_truoc * 86400 + randomInt(0, 23) * 3600;` — the adjusted
`time_t` value of `sinh_timestamp`, with the wall clock `now` explicit. -/
def sinh_timestamp_time (now ngay_truoc : ℤ) (r : ℕ) : ℤ :=
  now - (ngay_truoc * 86400 + randomInt 0 23 r * 3600)

/-- `string sinh_timestamp(int ngay_truoc)` with the wall clock `now` and the
C library's `localtime` passed explicitly. -/
def sinh_timestamp (now : ℤ) (localtime : ℤ → Tm) (ngay_truoc : ℤ) (r : ℕ) : String :=
  format_tm (localtime (sinh_timestamp_time now ngay_truoc r))

/-- One row of `drivers.csv`. -/
structure Driver where
  id : ℕ
  name : String
  rating : ℚ
  x : ℚ
  y : ℚ
  totalRides : ℤ

/-- `rand()` calls one driver row makes: 3 for the name, 3 doubles, 1 int. -/
def DRIVER_DRAWS : ℕ := 7

/-- The driver row of loop index `i`, reading its draws at stream offset `k`. -/
def genDriver (g : ℕ → ℕ) (k i : ℕ) : Driver :=
  { id := i
    name := sinh_ten (g k) (g (k + 1)) (g (k + 2))
    rating := lam_tron (randomDouble 3.5 5.0 (g (k + 3)))
    x := lam_tron (randomDouble 0 10 (g (k + 4)))
    y := lam_tron (randomDouble 0 10 (g (k + 5)))
    totalRides := randomInt 10 80 (g (k + 6)) }

/-- The driver loop `for (i = 1; i <= SO_TAI_XE; i++)`. -/
def drivers (g : ℕ → ℕ) : List Driver :=
  (List.range SO_TAI_XE).map fun j => genDriver g (DRIVER_DRAWS * j) (j + 1)

/-- One data line of `drivers.csv`. -/
def driverLine (d : Driver) : String :=
  natToDecStr d.id ++ "," ++ d.name ++ "," ++ fmt1 d.rating ++ "," ++ fmt1 d.x ++ "," ++
    fmt1 d.y ++ "," ++ intToDecStr d.totalRides

/-- `drivers.csv`: header line, then one line per driver. -/
def driversCsv (g : ℕ → ℕ) : List String :=
  "ID,Name,Rating,X,Y,TotalRides" :: (drivers g).map driverLine

/-- One row of `customers.csv`. -/
structure Customer where
  id : ℕ
  name : String
  district : String
  x : ℚ
  y : ℚ

/-- `rand()` calls one customer row makes: 3 for the name, 1 district, 2 doubles. -/
def CUSTOMER_DRAWS : ℕ := 6

/-- The customer row of loop index `i`, reading its draws at offset `k`. -/
def genCustomer (g : ℕ → ℕ) (k i : ℕ) : Customer :=
  { id := i
    name := sinh_ten (g k) (g (k + 1)) (g (k + 2))
    district := QUAN.getD (randomInt 0 9 (g (k + 3))).toNat ""
    x := lam_tron (randomDouble 0 10 (g (k + 4)))
    y := lam_tron (randomDouble 0 10 (g (k + 5))) }

/-- Stream offset where the customer loop starts. -/
def CUSTOMER_BASE : ℕ := DRIVER_DRAWS * SO_TAI_XE

/-- The customer loop `for (i = 1; i <= SO_KHACH_HANG; i++)`. -/
def customers (g : ℕ → ℕ) : List Customer :=
  (List.range SO_KHACH_HANG).map fun j => genCustomer g (CUSTOMER_BASE + CUSTOMER_DRAWS * j) (j + 1)

/-- One data line of `customers.csv`. -/
def customerLine (c : Customer) : String :=
  natToDecStr c.id ++ "," ++ c.name ++ "," ++ c.district ++ "," ++ fmt1 c.x ++ "," ++ fmt1 c.y

/-- `customers.csv`: header line, then one line per customer. -/
def customersCsv (g : ℕ → ℕ) : List String :=
  "ID,Name,District,X,Y" :: (customers g).map customerLine

/-- One row of `rides.csv`. -/
structure Ride where
  rideId : ℕ
  customerId : ℤ
  driverId : ℤ
  distance : ℚ
  fare : ℚ
  timestamp : String
  status : String

/-- `rand()` calls one ride row makes: distance, customer, driver, day count,
hour offset (inside `sinh_timestamp`), status. -/
def RIDE_DRAWS : ℕ := 6

/-- The ride row of loop index `i`, reading its draws at offset `k`. -/
def genRide (g : ℕ → ℕ) (now : ℤ) (localtime : ℤ → Tm) (k i : ℕ) : Ride :=
  let dist := lam_tron (randomDouble 2 12 (g k))
  { rideId := i
    customerId := randomInt 1 (SO_KHACH_HANG : ℤ) (g (k + 1))
    driverId := randomInt 1 (SO_TAI_XE : ℤ) (g (k + 2))
    distance := dist
    fare := dist * 12000
    timestamp := sinh_timestamp now localtime (randomInt 1 30 (g (k + 3))) (g (k + 4))
    status := if randomInt 1 10 (g (k + 5)) ≤ 8 then "CONFIRMED" else "CANCELLED" }

/-- Stream offset where the ride loop starts. -/
def RIDE_BASE : ℕ := CUSTOMER_BASE + CUSTOMER_DRAWS * SO_KHACH_HANG

/-- The ride loop `for (i = 1; i <= SO_CHUYEN_DI; i++)`. -/
def rides (g : ℕ → ℕ) (now : ℤ) (localtime : ℤ → Tm) : List Ride :=
  (List.range SO_CHUYEN_DI).map fun j => genRide g now localtime (RIDE_BASE + RIDE_DRAWS * j) (j + 1)

/-- One data line of `rides.csv`. -/
def rideLine (r : Ride) : String :=
  natToDecStr r.rideId ++ "," ++ intToDecStr r.customerId ++ "," ++ intToDecStr r.driverId ++
    "," ++ fmt1 r.distance ++ "," ++ fmt0 r.fare ++ "," ++ r.timestamp ++ "," ++ r.status

/-- `rides.csv`: header line, then one line per ride. -/
def ridesCsv (g : ℕ → ℕ) (now : ℤ) (localtime : ℤ → Tm) : List String :=
  "RideId,CustomerId,DriverId,Distance,Fare,Timestamp,Status" :: (rides g now localtime).map rideLine

/-- What one run of `main` produces: the three files and the exit code. -/
structure ProgramRun where
  driversFile : List String
  customersFile : List String
  ridesFile : List String
  exitCode : ℕ

/-- `int main()`: writes the three files in order and ends in `return 0`; no
branch in `main` inspects any failure condition. -/
def runMain (g : ℕ → ℕ) (now : ℤ) (localtime : ℤ → Tm) : ProgramRun :=
  { driversFile := driversCsv g
    customersFile := customersCsv g
    ridesFile := ridesCsv g now localtime
    exitCode := 0 }

/-- Number of `rand()` results `r` in `[0, RAND_MAX]` for which
`randomInt lo hi r` returns `v`; with `rand()` uniform on `[0, RAND_MAX]`,
the probability of the outcome `v` is this count divided by `RAND_MAX + 1`. -/
def countDraws (lo hi v : ℤ) : ℕ :=
  ((Finset.range (RAND_MAX + 1)).filter fun r => randomInt lo hi r = v).card

/-- A string of exactly `n` decimal-digit characters. -/
def digitString (s : String) (n : ℕ) : Prop :=
  s.data.length = n ∧ ∀ c ∈ s.data, c.isDigit = true

/-- The `YYYY-MM-DDTHH:MM:SS` shape: four-digit year, two-digit month, day,
hour, minute and second, with the literal separators of the source. -/
def matchesTimestampPattern (s : String) : Prop :=
  ∃ y mo d h mi se : String,
    s = y ++ "-" ++ mo ++ "-" ++ d ++ "T" ++ h ++ ":" ++ mi ++ ":" ++ se ∧
      digitString y 4 ∧ digitString mo 2 ∧ digitString d 2 ∧
      digitString h 2 ∧ digitString mi 2 ∧ digitString se 2

/-! ### Range lemmas for the numeric utilities -/

/-- `randomInt` stays inside `[lo, hi]` for every `rand()` result. -/
theorem randomInt_mem (lo hi : ℤ) (r : ℕ) (h : lo ≤ hi) :
    lo ≤ randomInt lo hi r ∧ randomInt lo hi r ≤ hi := by
  unfold randomInt
  have h1 : 0 ≤ (r : ℤ) % (hi - lo + 1) := Int.emod_nonneg _ (by omega)
  have h2 : (r : ℤ) % (hi - lo + 1) < hi - lo + 1 := Int.emod_lt_of_pos _ (by omega)
  omega

/-- `randomDouble` stays inside the closed interval `[lo, hi]` whenever the
`rand()` result is at most `RAND_MAX`. -/
theorem randomDouble_mem (lo hi : ℚ) (r : ℕ) (hle : lo ≤ hi) (hr : r ≤ RAND_MAX) :
    lo ≤ randomDouble lo hi r ∧ randomDouble lo hi r ≤ hi := by
  unfold randomDouble
  have h0 : (0 : ℚ) ≤ (r : ℚ) / (RAND_MAX : ℚ) := by positivity
  have h1 : (r : ℚ) / (RAND_MAX : ℚ) ≤ 1 := by
    rw [div_le_one (by norm_num [RAND_MAX])]
    exact_mod_cast hr
  constructor <;> nlinarith [sub_nonneg.mpr hle]

/-- `round` on `ℚ` is monotone. -/
theorem round_mono_rat (x y : ℚ) (h : x ≤ y) : round x ≤ round y := by
  rw [round_eq, round_eq]
  exact Int.floor_le_floor (by linarith)

/-- `lam_tron` maps `[a/10, b/10]` into itself for integer `a`, `b`. -/
theorem lam_tron_mem (a b : ℤ) (x : ℚ) (ha : (a : ℚ) / 10 ≤ x) (hb : x ≤ (b : ℚ) / 10) :
    (a : ℚ) / 10 ≤ lam_tron x ∧ lam_tron x ≤ (b : ℚ) / 10 := by
  unfold lam_tron
  have h1 : a ≤ round (x * 10) := by
    have h := round_mono_rat ((a : ℚ)) (x * 10) (by linarith)
    rwa [round_intCast] at h
  have h2 : round (x * 10) ≤ b := by
    have h := round_mono_rat (x * 10) ((b : ℚ)) (by linarith)
    rwa [round_intCast] at h
  have h1q : (a : ℚ) ≤ ((round (x * 10) : ℤ) : ℚ) := by exact_mod_cast h1
  have h2q : ((round (x * 10) : ℤ) : ℚ) ≤ (b : ℚ) := by exact_mod_cast h2
  constructor <;> linarith

/-- `lam_tron` always returns an integer multiple of one tenth. -/
theorem lam_tron_tenth (x : ℚ) : ∃ n : ℤ, lam_tron x = (n : ℚ) / 10 :=
  ⟨round (x * 10), rfl⟩

/-! ### Decimal strings -/

/-- A decimal digit rendered at code point `48 + d` is a digit character. -/
theorem char_digit_isDigit (d : ℕ) (hd : d < 10) : (Char.ofNat (48 + d)).isDigit = true := by
  interval_cases d <;> decide

/-- Every character `natToDecStr` emits is a decimal digit. -/
theorem natToDecStr_isDigit (n : ℕ) : ∀ c ∈ (natToDecStr n).data, c.isDigit = true := by
  intro c hc
  unfold natToDecStr at hc
  by_cases h : n = 0
  · rw [if_pos h] at hc
    have h0 : ("0" : String).data = ['0'] := rfl
    rw [h0] at hc
    simp only [List.mem_singleton] at hc
    subst hc
    decide
  · rw [if_neg h] at hc
    have hdata : (((Nat.digits 10 n).reverse.map fun d => Char.ofNat (48 + d)).asString).data
        = (Nat.digits 10 n).reverse.map fun d => Char.ofNat (48 + d) := rfl
    rw [hdata] at hc
    rcases List.mem_map.mp hc with ⟨d, hd, hcd⟩
    have hd10 : d < 10 := Nat.digits_lt_base (by norm_num) (List.mem_reverse.mp hd)
    rw [← hcd]
    exact char_digit_isDigit d hd10

/-- Length of the decimal rendering of a positive number. -/
theorem natToDecStr_data_length (n : ℕ) (h : n ≠ 0) :
    (natToDecStr n).data.length = Nat.log 10 n + 1 := by
  unfold natToDecStr
  rw [if_neg h]
  have hdata : (((Nat.digits 10 n).reverse.map fun d => Char.ofNat (48 + d)).asString).data
      = (Nat.digits 10 n).reverse.map fun d => Char.ofNat (48 + d) := rfl
  rw [hdata, List.length_map, List.length_reverse, Nat.digits_len 10 n (by norm_num) h]

/-- Numbers below ten render as a single digit. -/
theorem natToDecStr_len_one (n : ℕ) (h : n < 10) : (natToDecStr n).data.length = 1 := by
  by_cases h0 : n = 0
  · subst h0; decide
  · rw [natToDecStr_data_length n h0]
    have hlog : Nat.log 10 n = 0 := Nat.log_eq_zero_iff.mpr (Or.inl h)
    omega

/-- Any field value below 100 prints as exactly two digit characters under
`setw(2)` with fill `'0'`. -/
theorem pad2_digitString (n : ℕ) (h : n < 100) : digitString (pad2 n) 2 := by
  unfold pad2 digitString
  by_cases h10 : n < 10
  · rw [if_pos h10]
    constructor
    · rw [String.data_append]
      have h0 : ("0" : String).data = ['0'] := rfl
      rw [h0, List.length_append, natToDecStr_len_one n h10]
      rfl
    · intro c hc
      rw [String.data_append] at hc
      rcases List.mem_append.mp hc with hc0 | hc1
      · have h0 : ("0" : String).data = ['0'] := rfl
        rw [h0] at hc0
        simp only [List.mem_singleton] at hc0
        subst hc0
        decide
      · exact natToDecStr_isDigit n c hc1
  · rw [if_neg h10]
    refine ⟨?_, natToDecStr_isDigit n⟩
    rw [natToDecStr_data_length n (by omega)]
    have e1 : (10 : ℕ) ^ 1 = 10 := by norm_num
    have e2 : (10 : ℕ) ^ (1 + 1) = 100 := by norm_num
    have hlog : Nat.log 10 n = 1 :=
      Nat.log_eq_of_pow_le_of_lt_pow (e1 ▸ Nat.not_lt.mp h10) (e2 ▸ h)
    omega

/-- Four-digit rendering of a year in `[1000, 9999]`. -/
theorem natToDecStr_year (n : ℕ) (h1 : 1000 ≤ n) (h2 : n < 10000) :
    digitString (natToDecStr n) 4 := by
  refine ⟨?_, natToDecStr_isDigit n⟩
  rw [natToDecStr_data_length n (by omega)]
  have e3 : (10 : ℕ) ^ 3 = 1000 := by norm_num
  have e4 : (10 : ℕ) ^ (3 + 1) = 10000 := by norm_num
  have hlog : Nat.log 10 n = 3 := Nat.log_eq_of_pow_le_of_lt_pow (e3 ▸ h1) (e4 ▸ h2)
  omega

/-- `format_tm` produces the `YYYY-MM-DDTHH:MM:SS` shape for any `tm` whose
fields lie in `localtime`'s documented ranges and whose year has four digits. -/
theorem format_tm_matches (t : Tm)
    (hy1 : 1000 ≤ 1900 + t.tm_year) (hy2 : 1900 + t.tm_year < 10000)
    (hmo : t.tm_mon ≤ 11) (hmd : t.tm_mday ≤ 31) (hh : t.tm_hour ≤ 23)
    (hmi : t.tm_min ≤ 59) (hse : t.tm_sec ≤ 60) :
    matchesTimestampPattern (format_tm t) :=
  ⟨natToDecStr (1900 + t.tm_year), pad2 (1 + t.tm_mon), pad2 t.tm_mday, pad2 t.tm_hour,
   pad2 t.tm_min, pad2 t.tm_sec, rfl,
   natToDecStr_year _ hy1 hy2,
   pad2_digitString _ (by omega), pad2_digitString _ (by omega),
   pad2_digitString _ (by omega), pad2_digitString _ (by omega),
   pad2_digitString _ (by omega)⟩

/-! ### Helper equations for `genRide` projections -/

/-- `lam_tron x * 12000` is the integer `round (x * 10) * 1200`. -/
theorem lam_tron_mul_12000 (x : ℚ) :
    lam_tron x * 12000 = ((round (x * 10) * 1200 : ℤ) : ℚ) := by
  unfold lam_tron
  push_cast
  ring

/-! ### Claim theorems -/

/-- C1: on every run, `drivers.csv` and `customers.csv` each hold exactly 100
non-header data lines and `rides.csv` holds exactly 500, matching the
compile-time constants `SO_TAI_XE`, `SO_KHACH_HANG`, `SO_CHUYEN_DI`. -/
theorem c1_row_counts (g : ℕ → ℕ) (now : ℤ) (localtime : ℤ → Tm) :
    ((runMain g now localtime).driversFile.drop 1).length = SO_TAI_XE ∧
    ((runMain g now localtime).customersFile.drop 1).length = SO_KHACH_HANG ∧
    ((runMain g now localtime).ridesFile.drop 1).length = SO_CHUYEN_DI ∧
    SO_TAI_XE = 100 ∧ SO_KHACH_HANG = 100 ∧ SO_CHUYEN_DI = 500 := by
  refine ⟨?_, ?_, ?_, rfl, rfl, rfl⟩ <;>
    simp [runMain, driversCsv, customersCsv, ridesCsv, drivers, customers, rides]

/-- C9: `main` ends in `return 0` with no branch inspecting any failure
condition, so the exit code is 0 for every random stream, wall clock and
calendar conversion. -/
theorem c9_exit_code (g : ℕ → ℕ) (now : ℤ) (localtime : ℤ → Tm) :
    (runMain g now localtime).exitCode = 0 := rfl

/-- C5: every ride status is `CONFIRMED` or `CANCELLED`; it is `CONFIRMED`
exactly when the draw `randomInt(1, 10)` is at most 8; that draw lies in
`[1, 10]`, and 8 of those 10 values yield `CONFIRMED`. -/
theorem c5_status (g : ℕ → ℕ) (now : ℤ) (localtime : ℤ → Tm) (k i : ℕ) :
    ((genRide g now localtime k i).status = "CONFIRMED" ∨
      (genRide g now localtime k i).status = "CANCELLED") ∧
    ((genRide g now localtime k i).status = "CONFIRMED" ↔
      randomInt 1 10 (g (k + 5)) ≤ 8) ∧
    (1 ≤ randomInt 1 10 (g (k + 5)) ∧ randomInt 1 10 (g (k + 5)) ≤ 10) ∧
    ((Finset.Icc (1 : ℤ) 10).filter fun v => v ≤ 8).card = 8 := by
  have hs : (genRide g now localtime k i).status =
      if randomInt 1 10 (g (k + 5)) ≤ 8 then "CONFIRMED" else "CANCELLED" := rfl
  refine ⟨?_, ?_, randomInt_mem 1 10 _ (by norm_num), by decide⟩
  · rw [hs]
    by_cases hcond : randomInt 1 10 (g (k + 5)) ≤ 8 <;> simp [hcond]
  · rw [hs]
    by_cases hcond : randomInt 1 10 (g (k + 5)) ≤ 8 <;> simp [hcond]

/-- C4: the fare of every ride row is `Distance * 12000`, this value is an
exact integer, and the `setprecision(0)` formatting prints precisely that
integer — `round` introduces no change. -/
theorem c4_fare (g : ℕ → ℕ) (now : ℤ) (localtime : ℤ → Tm) (k i : ℕ) :
    (genRide g now localtime k i).fare = (genRide g now localtime k i).distance * 12000 ∧
    ∃ n : ℤ, (genRide g now localtime k i).fare = (n : ℚ) ∧
      round (genRide g now localtime k i).fare = n ∧
      fmt0 (genRide g now localtime k i).fare = intToDecStr n := by
  have hfare : (genRide g now localtime k i).fare =
      lam_tron (randomDouble 2 12 (g k)) * 12000 := rfl
  refine ⟨rfl, round (randomDouble 2 12 (g k) * 10) * 1200, ?_, ?_, ?_⟩
  · rw [hfare, lam_tron_mul_12000]
  · rw [hfare, lam_tron_mul_12000, round_intCast]
  · unfold fmt0
    rw [hfare, lam_tron_mul_12000, round_intCast]

/-- C2: every driver row has `Rating ∈ [3.5, 5.0]`, `X, Y ∈ [0, 10]`,
`TotalRides ∈ [10, 80]`, and `Rating`, `X`, `Y` are exact multiples of one
tenth (one decimal place), for any `rand()` results bounded by `RAND_MAX`. -/
theorem c2_driver_row (g : ℕ → ℕ) (k i : ℕ)
    (h3 : g (k + 3) ≤ RAND_MAX) (h4 : g (k + 4) ≤ RAND_MAX) (h5 : g (k + 5) ≤ RAND_MAX) :
    (3.5 ≤ (genDriver g k i).rating ∧ (genDriver g k i).rating ≤ 5) ∧
    (0 ≤ (genDriver g k i).x ∧ (genDriver g k i).x ≤ 10) ∧
    (0 ≤ (genDriver g k i).y ∧ (genDriver g k i).y ≤ 10) ∧
    (10 ≤ (genDriver g k i).totalRides ∧ (genDriver g k i).totalRides ≤ 80) ∧
    (∃ a : ℤ, (genDriver g k i).rating = (a : ℚ) / 10) ∧
    (∃ b : ℤ, (genDriver g k i).x = (b : ℚ) / 10) ∧
    (∃ c : ℤ, (genDriver g k i).y = (c : ℚ) / 10) := by
  have hrat : (genDriver g k i).rating = lam_tron (randomDouble 3.5 5.0 (g (k + 3))) := rfl
  have hx : (genDriver g k i).x = lam_tron (randomDouble 0 10 (g (k + 4))) := rfl
  have hy : (genDriver g k i).y = lam_tron (randomDouble 0 10 (g (k + 5))) := rfl
  have hrd3 := randomDouble_mem 3.5 5.0 (g (k + 3)) (by norm_num) h3
  have hrd4 := randomDouble_mem 0 10 (g (k + 4)) (by norm_num) h4
  have hrd5 := randomDouble_mem 0 10 (g (k + 5)) (by norm_num) h5
  have hm3 := lam_tron_mem 35 50 (randomDouble 3.5 5.0 (g (k + 3)))
    (by push_cast; linarith [hrd3.1]) (by push_cast; linarith [hrd3.2])
  have hm4 := lam_tron_mem 0 100 (randomDouble 0 10 (g (k + 4)))
    (by push_cast; linarith [hrd4.1]) (by push_cast; linarith [hrd4.2])
  have hm5 := lam_tron_mem 0 100 (randomDouble 0 10 (g (k + 5)))
    (by push_cast; linarith [hrd5.1]) (by push_cast; linarith [hrd5.2])
  push_cast at hm3 hm4 hm5
  refine ⟨⟨?_, ?_⟩, ⟨?_, ?_⟩, ⟨?_, ?_⟩, randomInt_mem 10 80 _ (by norm_num), ?_, ?_, ?_⟩
  · rw [hrat]; linarith [hm3.1]
  · rw [hrat]; linarith [hm3.2]
  · rw [hx]; linarith [hm4.1]
  · rw [hx]; linarith [hm4.2]
  · rw [hy]; linarith [hm5.1]
  · rw [hy]; linarith [hm5.2]
  · rw [hrat]; exact lam_tron_tenth _
  · rw [hx]; exact lam_tron_tenth _
  · rw [hy]; exact lam_tron_tenth _

/-- Witness for C2 at the all-zero random stream. -/
theorem c2_driver_row_witness :
    ((fun _ : ℕ => 0) (0 + 3) ≤ RAND_MAX ∧ (fun _ : ℕ => 0) (0 + 4) ≤ RAND_MAX ∧
      (fun _ : ℕ => 0) (0 + 5) ≤ RAND_MAX) ∧
    ((3.5 ≤ (genDriver (fun _ => 0) 0 1).rating ∧ (genDriver (fun _ => 0) 0 1).rating ≤ 5) ∧
      (0 ≤ (genDriver (fun _ => 0) 0 1).x ∧ (genDriver (fun _ => 0) 0 1).x ≤ 10) ∧
      (0 ≤ (genDriver (fun _ => 0) 0 1).y ∧ (genDriver (fun _ => 0) 0 1).y ≤ 10) ∧
      (10 ≤ (genDriver (fun _ => 0) 0 1).totalRides ∧
        (genDriver (fun _ => 0) 0 1).totalRides ≤ 80) ∧
      (∃ a : ℤ, (genDriver (fun _ => 0) 0 1).rating = (a : ℚ) / 10) ∧
      (∃ b : ℤ, (genDriver (fun _ => 0) 0 1).x = (b : ℚ) / 10) ∧
      (∃ c : ℤ, (genDriver (fun _ => 0) 0 1).y = (c : ℚ) / 10)) :=
  ⟨⟨by decide, by decide, by decide⟩,
    c2_driver_row (fun _ => 0) 0 1 (by decide) (by decide) (by decide)⟩

/-- C3: every ride row has `CustomerId ∈ [1, SO_KHACH_HANG]`,
`DriverId ∈ [1, SO_TAI_XE]` (both constants equal 100), and
`Distance ∈ [2, 12]` as an exact multiple of one tenth. -/
theorem c3_ride_row (g : ℕ → ℕ) (now : ℤ) (localtime : ℤ → Tm) (k i : ℕ)
    (h0 : g k ≤ RAND_MAX) :
    (1 ≤ (genRide g now localtime k i).customerId ∧
      (genRide g now localtime k i).customerId ≤ (SO_KHACH_HANG : ℤ)) ∧
    (1 ≤ (genRide g now localtime k i).driverId ∧
      (genRide g now localtime k i).driverId ≤ (SO_TAI_XE : ℤ)) ∧
    SO_KHACH_HANG = 100 ∧ SO_TAI_XE = 100 ∧
    (2 ≤ (genRide g now localtime k i).distance ∧
      (genRide g now localtime k i).distance ≤ 12) ∧
    ∃ n : ℤ, (genRide g now localtime k i).distance = (n : ℚ) / 10 := by
  have hcust : (genRide g now localtime k i).customerId =
      randomInt 1 (SO_KHACH_HANG : ℤ) (g (k + 1)) := rfl
  have hdrv : (genRide g now localtime k i).driverId =
      randomInt 1 (SO_TAI_XE : ℤ) (g (k + 2)) := rfl
  have hdist : (genRide g now localtime k i).distance =
      lam_tron (randomDouble 2 12 (g k)) := rfl
  have hrd := randomDouble_mem 2 12 (g k) (by norm_num) h0
  have hm := lam_tron_mem 20 120 (randomDouble 2 12 (g k))
    (by push_cast; linarith [hrd.1]) (by push_cast; linarith [hrd.2])
  push_cast at hm
  refine ⟨?_, ?_, rfl, rfl, ⟨?_, ?_⟩, ?_⟩
  · rw [hcust]; exact randomInt_mem 1 _ _ (by norm_num [SO_KHACH_HANG])
  · rw [hdrv]; exact randomInt_mem 1 _ _ (by norm_num [SO_TAI_XE])
  · rw [hdist]; linarith [hm.1]
  · rw [hdist]; linarith [hm.2]
  · rw [hdist]; exact lam_tron_tenth _

/-- Witness for C3 at the all-zero random stream. -/
theorem c3_ride_row_witness :
    (fun _ : ℕ => 0) 0 ≤ RAND_MAX ∧
    ((1 ≤ (genRide (fun _ => 0) 0 (fun _ => Tm.mk 126 9 10 3 4 5) 0 1).customerId ∧
      (genRide (fun _ => 0) 0 (fun _ => Tm.mk 126 9 10 3 4 5) 0 1).customerId ≤
        (SO_KHACH_HANG : ℤ)) ∧
    (1 ≤ (genRide (fun _ => 0) 0 (fun _ => Tm.mk 126 9 10 3 4 5) 0 1).driverId ∧
      (genRide (fun _ => 0) 0 (fun _ => Tm.mk 126 9 10 3 4 5) 0 1).driverId ≤
        (SO_TAI_XE : ℤ)) ∧
    SO_KHACH_HANG = 100 ∧ SO_TAI_XE = 100 ∧
    (2 ≤ (genRide (fun _ => 0) 0 (fun _ => Tm.mk 126 9 10 3 4 5) 0 1).distance ∧
      (genRide (fun _ => 0) 0 (fun _ => Tm.mk 126 9 10 3 4 5) 0 1).distance ≤ 12) ∧
    ∃ n : ℤ, (genRide (fun _ => 0) 0 (fun _ => Tm.mk 126 9 10 3 4 5) 0 1).distance =
      (n : ℚ) / 10) :=
  ⟨by decide, c3_ride_row (fun _ => 0) 0 (fun _ => Tm.mk 126 9 10 3 4 5) 0 1 (by decide)⟩

/-- C10: every ride fare is an exact integer that is a positive multiple of
1200 lying in `[24000, 144000]`, because the distance is a multiple of 0.1 in
`[2, 12]` and the fare is distance × 12000. -/
theorem c10_fare_range (g : ℕ → ℕ) (now : ℤ) (localtime : ℤ → Tm) (k i : ℕ)
    (h0 : g k ≤ RAND_MAX) :
    ∃ n : ℤ, (genRide g now localtime k i).fare = (n : ℚ) ∧ 1200 ∣ n ∧ 0 < n ∧
      24000 ≤ n ∧ n ≤ 144000 := by
  have hfare : (genRide g now localtime k i).fare =
      lam_tron (randomDouble 2 12 (g k)) * 12000 := rfl
  have hrd := randomDouble_mem 2 12 (g k) (by norm_num) h0
  have h20 : (20 : ℤ) ≤ round (randomDouble 2 12 (g k) * 10) := by
    have h := round_mono_rat ((20 : ℤ) : ℚ) (randomDouble 2 12 (g k) * 10)
      (by push_cast; linarith [hrd.1])
    rwa [round_intCast] at h
  have h120 : round (randomDouble 2 12 (g k) * 10) ≤ (120 : ℤ) := by
    have h := round_mono_rat (randomDouble 2 12 (g k) * 10) ((120 : ℤ) : ℚ)
      (by push_cast; linarith [hrd.2])
    rwa [round_intCast] at h
  refine ⟨round (randomDouble 2 12 (g k) * 10) * 1200, ?_, ⟨_, mul_comm _ _⟩, ?_, ?_, ?_⟩
  · rw [hfare, lam_tron_mul_12000]
  · nlinarith
  · nlinarith
  · nlinarith

/-- Witness for C10 at the all-zero random stream. -/
theorem c10_fare_range_witness :
    (fun _ : ℕ => 0) 0 ≤ RAND_MAX ∧
    ∃ n : ℤ, (genRide (fun _ => 0) 0 (fun _ => Tm.mk 126 9 10 3 4 5) 0 1).fare = (n : ℚ) ∧
      1200 ∣ n ∧ 0 < n ∧ 24000 ≤ n ∧ n ≤ 144000 :=
  ⟨by decide, c10_fare_range (fun _ => 0) 0 (fun _ => Tm.mk 126 9 10 3 4 5) 0 1 (by decide)⟩

/-- C7 (amended): for `min < max` and any `rand()` result in `[0, RAND_MAX]`,
`randomDouble(min, max)` lies in the closed range `[min, max]`; the upper
endpoint is attained (at `rand() = RAND_MAX`) because the code divides by
`RAND_MAX` rather than `RAND_MAX + 1`. -/
theorem c7_randomDouble_range (lo hi : ℚ) (r : ℕ) (hlt : lo < hi) (hr : r ≤ RAND_MAX) :
    lo ≤ randomDouble lo hi r ∧ randomDouble lo hi r ≤ hi :=
  randomDouble_mem lo hi r hlt.le hr

/-- C7 counterexample: with `min = 0 < 1 = max` and the admissible `rand()`
result `RAND_MAX`, the value returned is exactly `1 = max`, so the claimed
half-open range `[min, max)` is violated. -/
theorem c7_counterexample : ¬ randomDouble 0 1 RAND_MAX < 1 := by
  norm_num [randomDouble, RAND_MAX]

/-- Witness for the amended C7. -/
theorem c7_randomDouble_range_witness :
    ((0 : ℚ) < 1 ∧ 5 ≤ RAND_MAX) ∧
    (0 : ℚ) ≤ randomDouble 0 1 5 ∧ randomDouble 0 1 5 ≤ 1 :=
  ⟨⟨by norm_num, by norm_num [RAND_MAX]⟩,
    c7_randomDouble_range 0 1 5 (by norm_num) (by norm_num [RAND_MAX])⟩

/-- C6: the ride timestamp is the formatted `localtime` image of
`now - days_back*86400 - h*3600` with `h ∈ [0, 23]` and
`days_back = randomInt(1, 30) ∈ [1, 30]`, hence it lies within the last 31
days of `now`; and the formatted string has the `YYYY-MM-DDTHH:MM:SS` shape
(zero-padded two-digit fields, four-digit year) whenever `localtime` returns
fields in its documented ranges.  The wall clock `now` and the C library's
`localtime` are modelled as explicit parameters. -/
theorem c6_ride_timestamp (g : ℕ → ℕ) (now : ℤ) (localtime : ℤ → Tm) (k i : ℕ) (t : ℤ)
    (ht : t = sinh_timestamp_time now (randomInt 1 30 (g (k + 3))) (g (k + 4)))
    (hy1 : 1000 ≤ 1900 + (localtime t).tm_year) (hy2 : 1900 + (localtime t).tm_year < 10000)
    (hmo : (localtime t).tm_mon ≤ 11) (hmd : (localtime t).tm_mday ≤ 31)
    (hh : (localtime t).tm_hour ≤ 23) (hmi : (localtime t).tm_min ≤ 59)
    (hse : (localtime t).tm_sec ≤ 60) :
    (genRide g now localtime k i).timestamp = format_tm (localtime t) ∧
    (∃ h : ℤ, 0 ≤ h ∧ h ≤ 23 ∧
      t = now - (randomInt 1 30 (g (k + 3)) * 86400 + h * 3600)) ∧
    (1 ≤ randomInt 1 30 (g (k + 3)) ∧ randomInt 1 30 (g (k + 3)) ≤ 30) ∧
    (now - 31 * 86400 ≤ t ∧ t ≤ now) ∧
    matchesTimestampPattern ((genRide g now localtime k i).timestamp) := by
  have hts : (genRide g now localtime k i).timestamp =
      sinh_timestamp now localtime (randomInt 1 30 (g (k + 3))) (g (k + 4)) := rfl
  have hdays := randomInt_mem 1 30 (g (k + 3)) (by norm_num)
  have hhour := randomInt_mem 0 23 (g (k + 4)) (by norm_num)
  have heq : (genRide g now localtime k i).timestamp = format_tm (localtime t) := by
    rw [hts, ht]; rfl
  refine ⟨heq, ⟨randomInt 0 23 (g (k + 4)), hhour.1, hhour.2, ?_⟩, hdays, ⟨?_, ?_⟩, ?_⟩
  · rw [ht]; rfl
  · rw [ht]; unfold sinh_timestamp_time; nlinarith [hdays.1, hdays.2, hhour.1, hhour.2]
  · rw [ht]; unfold sinh_timestamp_time; nlinarith [hdays.1, hdays.2, hhour.1, hhour.2]
  · rw [heq]
    exact format_tm_matches (localtime t) hy1 hy2 hmo hmd hh hmi hse

/-- Witness for C6 at the all-zero random stream, `now = 0` and the constant
calendar conversion `2026-10-10T03:04:05`; the adjusted time is `-86400`. -/
theorem c6_ride_timestamp_witness :
    ((-86400 : ℤ) = sinh_timestamp_time 0 (randomInt 1 30 ((fun _ : ℕ => 0) (0 + 3)))
        ((fun _ : ℕ => 0) (0 + 4)) ∧
      1000 ≤ 1900 + ((fun _ : ℤ => Tm.mk 126 9 10 3 4 5) (-86400 : ℤ)).tm_year ∧
      1900 + ((fun _ : ℤ => Tm.mk 126 9 10 3 4 5) (-86400 : ℤ)).tm_year < 10000) ∧
    ((genRide (fun _ => 0) 0 (fun _ => Tm.mk 126 9 10 3 4 5) 0 1).timestamp =
        format_tm ((fun _ : ℤ => Tm.mk 126 9 10 3 4 5) (-86400 : ℤ)) ∧
      (∃ h : ℤ, 0 ≤ h ∧ h ≤ 23 ∧
        (-86400 : ℤ) = 0 - (randomInt 1 30 ((fun _ : ℕ => 0) (0 + 3)) * 86400 + h * 3600)) ∧
      (1 ≤ randomInt 1 30 ((fun _ : ℕ => 0) (0 + 3)) ∧
        randomInt 1 30 ((fun _ : ℕ => 0) (0 + 3)) ≤ 30) ∧
      ((0 : ℤ) - 31 * 86400 ≤ (-86400 : ℤ) ∧ (-86400 : ℤ) ≤ 0) ∧
      matchesTimestampPattern
        ((genRide (fun _ => 0) 0 (fun _ => Tm.mk 126 9 10 3 4 5) 0 1).timestamp)) :=
  ⟨⟨by decide, by decide, by decide⟩,
    c6_ride_timestamp (fun _ => 0) 0 (fun _ => Tm.mk 126 9 10 3 4 5) 0 1 (-86400)
      (by decide) (by decide) (by decide) (by decide) (by decide) (by decide)
      (by decide) (by decide)⟩

/-! ### Outcome counts of `randomInt` over a uniform `rand()` source -/

/-- Size of a residue class `d` modulo `k` below a bound `N`, by enumerating
the class as `j ↦ k * j + d`. -/
theorem card_mod_class (N k d c : ℕ) (hk : 0 < k) (hd : d < k)
    (hc : ∀ j : ℕ, k * j + d < N ↔ j < c) :
    ((Finset.range N).filter fun r => r % k = d).card = c := by
  rw [← Finset.card_range c]
  apply Finset.card_nbij' (fun r => r / k) (fun j => k * j + d)
  · intro r hr
    simp only [Finset.mem_filter, Finset.mem_range] at hr
    simp only [Finset.mem_range]
    have hdm := Nat.div_add_mod r k
    exact (hc (r / k)).mp (by omega)
  · intro j hj
    simp only [Finset.mem_range] at hj
    simp only [Finset.mem_filter, Finset.mem_range]
    refine ⟨(hc j).mpr hj, ?_⟩
    rw [Nat.mul_add_mod]
    exact Nat.mod_eq_of_lt hd
  · intro r hr
    simp only [Finset.mem_filter, Finset.mem_range] at hr
    have hdm := Nat.div_add_mod r k
    omega
  · intro j _
    rw [Nat.mul_add_div hk, Nat.div_eq_of_lt hd, Nat.add_zero]

/-- `randomInt 1 10` returns `v = d + 1` exactly on the `rand()` results in
the residue class `d` modulo 10, so the outcome count is the class size. -/
theorem countDraws_one_ten (v : ℤ) (d c : ℕ) (hv : v = (d : ℤ) + 1) (hd : d < 10)
    (hc : ∀ j : ℕ, 10 * j + d < RAND_MAX + 1 ↔ j < c) :
    countDraws 1 10 v = c := by
  unfold countDraws
  have hfe : ((Finset.range (RAND_MAX + 1)).filter fun r => randomInt 1 10 r = v)
      = (Finset.range (RAND_MAX + 1)).filter fun r => r % 10 = d := by
    apply Finset.filter_congr
    intro r _
    unfold randomInt
    subst hv
    constructor <;> · intro h; omega
  rw [hfe]
  exact card_mod_class (RAND_MAX + 1) 10 d c (by norm_num) hd hc

/-- Outcome 1 of `randomInt(1, 10)` arises for 214748365 of the `2^31`
possible `rand()` results. -/
theorem countDraws_outcome_one : countDraws 1 10 1 = 214748365 :=
  countDraws_one_ten 1 0 214748365 (by norm_num) (by norm_num)
    (by intro j; unfold RAND_MAX; omega)

/-- Outcome 10 of `randomInt(1, 10)` arises for 214748364 of the `2^31`
possible `rand()` results. -/
theorem countDraws_outcome_ten : countDraws 1 10 10 = 214748364 :=
  countDraws_one_ten 10 9 214748364 (by norm_num) (by norm_num)
    (by intro j; unfold RAND_MAX; omega)

/-- C8 (amended): for all `min ≤ max`, every result of `randomInt(min, max)`
lies in the inclusive range `[min, max]`.  Exact uniformity over a uniform
`rand()` source fails in general: the draw is biased whenever
`max - min + 1` does not divide `RAND_MAX + 1 = 2^31`. -/
theorem c8_randomInt_range (lo hi : ℤ) (r : ℕ) (h : lo ≤ hi) :
    lo ≤ randomInt lo hi r ∧ randomInt lo hi r ≤ hi :=
  randomInt_mem lo hi r h

/-- C8 counterexample: with `min = 1`, `max = 10` and `rand()` uniform on
`[0, RAND_MAX]`, outcome 1 arises on 214748365 of the `2^31` equally likely
draws but outcome 10 only on 214748364, so the outcomes of `[min, max]` are
not returned with equal probability — the claimed uniformity fails. -/
theorem c8_counterexample : countDraws 1 10 1 ≠ countDraws 1 10 10 := by
  rw [countDraws_outcome_one, countDraws_outcome_ten]
  omega

/-- Witness for the amended C8. -/
theorem c8_randomInt_range_witness :
    (1 : ℤ) ≤ 10 ∧ (1 : ℤ) ≤ randomInt 1 10 7 ∧ randomInt 1 10 7 ≤ 10 :=
  ⟨by norm_num, c8_randomInt_range 1 10 7 (by norm_num)⟩

end MinRide
